import Mathlib

/-!
Verification of the baojimi OpenAI-to-Gemini proxy: a shallow embedding of
the key-rotation dispatch engine, the format converter, the fake-stream
chunker, the credential pool and the models endpoint, with theorems checking
the natural-language specification against the code.

Sources embedded:
  * `src/pages/api/v1/chat/completions.ts` (serverless handler)
  * `src/pages/api/v1/chat/completions-edge.ts` (two concatenated edge
    handler variants; we call them variant 1 = lines 1-612 and
    variant 2 = lines 613-1095)
  * `src/lib/converter.ts` (`convertOpenAItoGemini`)
  * `src/lib/key-manager.ts` (`fetchKeysFromDb`, `getAllAvailableGeminiKeys`)
  * `src/lib/settings-manager.ts` (`generateDisguiseString`)
  * `src/lib/config.ts` (`ApiError`, `ERROR_MESSAGES`)
  * `src/pages/api/v1/models.ts` (models listing endpoint)
-/

namespace Baojimi

/-! ## String helpers (JS `String.prototype.includes`, `startsWith`, `trim`) -/

/-- Does the list start with the given pattern? (JS `String.startsWith`.) -/
def listStartsWith : List Char → List Char → Bool
  | _, [] => true
  | [], _ :: _ => false
  | a :: as, b :: bs => a = b && listStartsWith as bs

/-- Does the list contain the pattern as a contiguous subsequence?
(JS `String.includes`.) -/
def listContainsSeq : List Char → List Char → Bool
  | [], needle => needle.isEmpty
  | h :: t, needle => listStartsWith (h :: t) needle || listContainsSeq t needle

/-- JS `hay.includes(pat)`. -/
def strContains (hay pat : String) : Bool :=
  listContainsSeq hay.toList pat.toList

/-! ## Data model -/

/-- One eligible upstream credential as returned by the pool
(`interface GeminiKey` in `key-manager.ts`). -/
structure GeminiKey where
  id : String
  api_key : String
deriving DecidableEq, Repr

/-- A JS error value as probed by `isRetryableError`: an effective message
(`error.message || error.toString()`) and the `code`/`status` fields. -/
structure JsError where
  message : String
  code : Option Nat := none
  status : Option Nat := none
deriving DecidableEq, Repr

/-- JS `a || b` on optional numeric fields: `0`, like `undefined`, is falsy. -/
def jsOrNat : Option Nat → Option Nat → Option Nat
  | some c, s => if c = 0 then s else some c
  | none, s => s

/-- The function `isRetryableError` from `completions.ts` lines 31-57 (identical copies at
`completions-edge.ts` lines 34-50 and 646-662).  The argument is `none` for a
falsy JS error value (`null`/`undefined`), on which the source's first guard
`if (!error) return false` fires. -/
def isRetryableError : Option JsError → Bool
  | none => false
  | some e =>
    let errorCode := jsOrNat e.code e.status
    if errorCode = some 401 then false
    else if errorCode = some 403 && !(strContains e.message "API key")
            && !(strContains e.message "API_KEY") then false
    else true

/-! ## Response strategy selection -/

/-- The three delivery strategies of the spec's section 4.3. -/
inductive Strategy
  | realStream
  | fakeStream
  | buffered
deriving DecidableEq, Repr

/-- Strategy choice of edge handler variant 1 (`completions-edge.ts`
lines 463-486): `enabled` is `streamingConfig.enabled`, `fake` is
`streamingConfig.fake_stream_enabled`. -/
def selectStrategyV1 (isStream enabled fake : Bool) : Strategy :=
  if isStream then
    if enabled && !fake then .realStream
    else if !enabled && fake then .fakeStream
    else if !enabled && !fake then .buffered
    else .realStream
  else .buffered

/-- Strategy choice of edge handler variant 2 (`completions-edge.ts`
lines 945-972); the primary strategy invoked first (the variant's
real-to-fake fallback fires only inside the `enabled && !fake` branch, where
`fake` is false, so it never changes the selection). -/
def selectStrategyV2 (isStream enabled fake : Bool) : Strategy :=
  if isStream && enabled then
    if enabled && !fake then .realStream else .fakeStream
  else if isStream && fake then .fakeStream
  else .buffered

/-! ## Dispatch loop (failover controller)

All three handler copies share one loop shape (`completions.ts` 256-339,
`completions-edge.ts` 449-559 and 934-1045): push the key id onto
`triedKeys`, fire `updateKeyUsage`, invoke the strategy; on success return
its result; on failure remember `lastError` and continue when
`isRetryableError` holds, else break.  The upstream attempt is abstracted as
a function from the credential to an outcome. -/

/-- Outcome of one strategy invocation with one credential. -/
inductive AttemptOutcome (α : Type)
  | success (result : α)
  | failure (err : Option JsError)
deriving DecidableEq, Repr

/-- Result of the whole loop: first success, or exhaustion/break with the
last observed error (`none` when no key was tried). -/
inductive LoopResult (α : Type)
  | success (keyId : String) (result : α)
  | exhausted (lastError : Option (Option JsError))
deriving DecidableEq, Repr

/-- The dispatch loop over the (already ordered) candidate list.  Returns the
loop result together with the final `triedKeys` list, in emission order. -/
def dispatchLoop {α : Type} (attempt : GeminiKey → AttemptOutcome α) :
    List GeminiKey → Option (Option JsError) → LoopResult α × List String
  | [], lastError => (.exhausted lastError, [])
  | k :: rest, _lastError =>
    match attempt k with
    | .success r => (.success k.id r, [k.id])
    | .failure e =>
      if isRetryableError e then
        ((dispatchLoop attempt rest (some e)).1,
         k.id :: (dispatchLoop attempt rest (some e)).2)
      else
        (.exhausted (some e), [k.id])

/-! ## Format converter (`src/lib/converter.ts`) -/

/-- An OpenAI-shaped message. -/
structure ChatMessage where
  role : String
  content : String
deriving DecidableEq, Repr

/-- One element of a Gemini `parts` array. -/
structure GeminiPart where
  text : String
deriving DecidableEq, Repr

/-- One Gemini `contents` entry (the source always builds a singleton
`parts`). -/
structure GeminiContent where
  role : String
  parts : List GeminiPart
deriving DecidableEq, Repr

/-- JS `messages.findIndex(m => m.role === 'user')`, as an `Option`
(`none` for the source's `-1`). -/
def firstUserIdxAux : Nat → List ChatMessage → Option Nat
  | _, [] => none
  | i, m :: ms => if m.role == "user" then some i else firstUserIdxAux (i + 1) ms

/-- Index of the first message with role `user`. -/
def firstUserIdx (msgs : List ChatMessage) : Option Nat :=
  firstUserIdxAux 0 msgs

/-- The disguise mutation of `converter.ts` line 20:
`` content = `${content} [${disguiseString}]` ``. -/
def disguiseDecorate (content token : String) : String :=
  content ++ " [" ++ token ++ "]"

/-- The body of the `messages.map` callback in `convertOpenAItoGemini`
(`converter.ts` lines 14-41): mutate the first user message when the
disguise feature is on, then translate the role; unknown roles map to
`none` (the source's `null`, removed by `.filter(Boolean)`). -/
def convertOneMessage (disguise : Bool) (token : String) (fIdx : Option Nat)
    (idx : Nat) (msg : ChatMessage) : Option GeminiContent :=
  let content :=
    if disguise && msg.role == "user" && fIdx == some idx then
      disguiseDecorate msg.content token
    else msg.content
  if msg.role == "system" then some ⟨"user", [⟨"System: " ++ content⟩]⟩
  else if msg.role == "user" then some ⟨"user", [⟨content⟩]⟩
  else if msg.role == "assistant" then some ⟨"model", [⟨content⟩]⟩
  else none

/-- The indexed map-and-filter over the message list. -/
def convertMessagesAux (disguise : Bool) (token : String) (fIdx : Option Nat) :
    Nat → List ChatMessage → List GeminiContent
  | _, [] => []
  | i, m :: ms =>
    match convertOneMessage disguise token fIdx i m with
    | some g => g :: convertMessagesAux disguise token fIdx (i + 1) ms
    | none => convertMessagesAux disguise token fIdx (i + 1) ms

/-- The `contents` produced by `convertOpenAItoGemini`.  The random disguise
string is passed in as `token`; `disguise` is the `getDisguiseEnabled()`
flag. -/
def convertMessages (disguise : Bool) (token : String)
    (msgs : List ChatMessage) : List GeminiContent :=
  convertMessagesAux disguise token (firstUserIdx msgs) 0 msgs

/-- Gemini `generationConfig` (`converter.ts` lines 46-49). -/
structure GenerationConfig where
  maxOutputTokens : ℚ
  temperature : ℚ
deriving DecidableEq, Repr

/-- JS `x || d` on an optional numeric field: `0` is falsy just like an
absent field. -/
def jsOrNum (v : Option ℚ) (d : ℚ) : ℚ :=
  match v with
  | none => d
  | some x => if x = 0 then d else x

/-- The OpenAI-shaped request fields the converter reads. -/
structure OpenAIRequest where
  messages : List ChatMessage
  max_tokens : Option ℚ := none
  temperature : Option ℚ := none

/-- The upstream-shaped request the converter builds. -/
structure GeminiRequest where
  contents : List GeminiContent
  generationConfig : GenerationConfig

/-- The function `convertOpenAItoGemini` (`converter.ts` lines 4-53):
`maxOutputTokens: max_tokens || 2048`, `temperature: temperature || 0.7`. -/
def convertOpenAItoGemini (disguise : Bool) (token : String)
    (req : OpenAIRequest) : GeminiRequest :=
  { contents := convertMessages disguise token req.messages
    generationConfig :=
      { maxOutputTokens := jsOrNum req.max_tokens 2048
        temperature := jsOrNum req.temperature (7 / 10) } }

/-- The character set of `generateDisguiseString`
(`settings-manager.ts` line 305). -/
def disguiseChars : List Char :=
  "ABCDEFGHIJKLMNOPQRSTUVWXYZabcdefghijklmnopqrstuvwxyz0123456789".toList

/-- The function `generateDisguiseString` (`settings-manager.ts` lines 304-311): six
draws from the 62-character alphabet; the `Math.random()` draws are
abstracted as the index sequence `picks` (each reduced mod 62, as
`Math.floor(Math.random()*len)` always lies below `len`). -/
def generateDisguiseString (picks : Nat → Nat) : String :=
  String.mk ((List.range 6).map
    (fun i => disguiseChars.getD (picks i % disguiseChars.length) 'A'))

/-- The request "enhancement" of edge handler variant 1
(`completions-edge.ts` lines 426-441): regardless of any feature flag,
append a request stamp (`\n<!-- req_${Date.now()}_${random} -->`) to the
content of the last message when its role is `user`.  The stamp is passed
in as `stamp`. -/
def enhanceMessages (stamp : String) (msgs : List ChatMessage) : List ChatMessage :=
  match msgs.getLast? with
  | some m =>
    if m.role == "user" then msgs.dropLast ++ [⟨m.role, m.content ++ stamp⟩]
    else msgs
  | none => msgs

/-! ## `ApiError` and the final-error synthesis (`config.ts`, handlers) -/

/-- The `ApiError` class of `config.ts`: status code, type tag, message. -/
structure ApiErrorT where
  statusCode : Nat
  type : String
  message : String
deriving DecidableEq, Repr

/-- The table entry `ERROR_MESSAGES[status].type` (`config.ts` lines 38-63). -/
def errorTypeFor (status : Nat) : String :=
  if status = 401 then "invalid_api_key"
  else if status = 429 then "rate_limit_exceeded"
  else if status = 500 then "internal_error"
  else if status = 503 then "no_available_keys"
  else if status = 400 then "invalid_request_body"
  else if status = 403 then "gemini_api_key_invalid"
  else "unknown_error"

/-- The table entry `ERROR_MESSAGES[status].message` (`config.ts` lines 38-63). -/
def defaultMessageFor (status : Nat) : String :=
  if status = 401 then "你这调用密钥不对，我很难帮你办事啊~"
  else if status = 429 then "您已触发\"激情调用\"模式，请冷静。我们已为您启动强制冷却系统，稍后再试。"
  else if status = 500 then "要么是你网络问题，要么是你发的请求有问题，反正Google不理你咯"
  else if status = 503 then "弹尽粮绝！我们所有的Gemini Key都在休息或已被封印。等刷新额度吧！555~"
  else if status = 400 then "请求参数好像不太对劲，再看一眼，不行，AI真看不懂"
  else if status = 403 then "你提供的某个Gemini Key被Google封印了，它现在只是一串无用的字符。快去后台检查一下吧！"
  else "Unknown error"

/-- The `ApiError` constructor: `message || errorConfig?.message || 'Unknown
error'` and `errorConfig?.type || 'unknown_error'`. -/
def mkApiError (status : Nat) (msg : Option String) : ApiErrorT :=
  { statusCode := status
    type := errorTypeFor status
    message := msg.getD (defaultMessageFor status) }

/-- Final-error synthesis of edge handler variant 1 after the pool is
exhausted (`completions-edge.ts` lines 565-580), from the last error's
message and the number of keys tried. -/
def synthFinalErrorEdge (errorMsg : String) (numTried : Nat) : ApiErrorT :=
  if strContains errorMsg "quota" || strContains errorMsg "QUOTA_EXCEEDED" then
    mkApiError 429 (some "All API keys have exceeded quota limits")
  else if strContains errorMsg "API_KEY_INVALID" || strContains errorMsg "Invalid API key" then
    mkApiError 401 (some "All API keys are invalid")
  else if strContains errorMsg "Empty response" then
    mkApiError 502 (some "All API keys returned empty responses")
  else
    mkApiError 503
      (some ("All " ++ toString numTried ++ " API keys failed. Last error: " ++ errorMsg))

/-- Final-error synthesis of the serverless handler (`completions.ts`
lines 344-362) and of edge handler variant 2 (`completions-edge.ts`
lines 1050-1063): identical to the edge variant-1 table but with no
`Empty response` branch. -/
def synthFinalErrorNode (errorMsg : String) (numTried : Nat) : ApiErrorT :=
  if strContains errorMsg "quota" || strContains errorMsg "QUOTA_EXCEEDED" then
    mkApiError 429 (some "All API keys have exceeded quota limits")
  else if strContains errorMsg "API_KEY_INVALID" || strContains errorMsg "Invalid API key" then
    mkApiError 401 (some "All API keys are invalid")
  else
    mkApiError 503
      (some ("All " ++ toString numTried ++ " API keys failed. Last error: " ++ errorMsg))

/-! ## Credential pool (`src/lib/key-manager.ts`) -/

/-- Outcome of a durable-storage (supabase) or cache (kv) operation. -/
inductive DbResult (α : Type)
  | ok (val : α)
  | err (msg : String)
deriving DecidableEq, Repr

/-- The function `fetchKeysFromDb` (`key-manager.ts` lines 326-339): on a storage error
it logs and returns the EMPTY LIST (`return []`), swallowing the failure. -/
def fetchKeysFromDb : DbResult (List GeminiKey) → List GeminiKey
  | .ok data => data
  | .err _ => []

/-- Environment of one `getAllAvailableGeminiKeys` call: the
`NODE_ENV === 'development'` flag, the kv-cache read (`err` = cache threw,
`ok none` = cache miss, `ok (some l)` = cached entry `l`), and the durable
storage read. -/
structure PoolEnv where
  isDev : Bool
  cache : DbResult (Option (List GeminiKey))
  db : DbResult (List GeminiKey)

/-- The key list `getAllAvailableGeminiKeys` assembles before its emptiness
check (`key-manager.ts` lines 344-368): dev mode reads storage directly; a
cache hit with a non-empty entry is used as-is; a miss, an empty entry, or a
cache error falls back to `fetchKeysFromDb`. -/
def effectiveKeys (env : PoolEnv) : List GeminiKey :=
  if env.isDev then fetchKeysFromDb env.db
  else
    match env.cache with
    | .err _ => fetchKeysFromDb env.db
    | .ok none => fetchKeysFromDb env.db
    | .ok (some cached) =>
      if 0 < cached.length then cached else fetchKeysFromDb env.db

/-- The function `getAllAvailableGeminiKeys` (`key-manager.ts` lines 342-383): throws
`ApiError(503)` when the assembled list is empty, otherwise returns it.  The
cache-refill side effect (`kv.setex`) does not affect the returned value and
is not modelled. -/
def getAllAvailableGeminiKeys (env : PoolEnv) : Except ApiErrorT (List GeminiKey) :=
  let keys := effectiveKeys env
  if keys.length = 0 then .error (mkApiError 503 none) else .ok keys

/-! ## Models endpoint (`src/pages/api/v1/models.ts`) -/

/-- One entry of the Google `models` array (only `name` is read). -/
structure GoogleModel where
  name : String
deriving DecidableEq, Repr

/-- Outcome of the upstream model-listing call: the fetch/JSON threw, the
response was not ok, or a parsed model list. -/
inductive UpstreamModels
  | throws
  | notOk
  | ok (models : List GoogleModel)
deriving DecidableEq, Repr

/-- An OpenAI-shaped model entry (`models.ts` lines 53-61); `permission` is
always the empty array and is omitted. -/
structure OpenAIModel where
  id : String
  object : String
  created : Nat
  owned_by : String
  root : String
  parent : Option String
deriving DecidableEq, Repr

/-- Body of the models endpoint's response. -/
inductive ModelsBody
  | list (data : List OpenAIModel)
  | errorBody (msg : String)
deriving DecidableEq, Repr

/-- An HTTP response of the models endpoint. -/
structure ModelsResponse where
  status : Nat
  body : ModelsBody
deriving DecidableEq, Repr

/-- JS `s.replace(pat, '')` for a non-empty literal `pat`: remove the first
occurrence. -/
def replaceFirstList : List Char → List Char → List Char
  | [], _ => []
  | h :: t, pat =>
    if listStartsWith (h :: t) pat then List.drop pat.length (h :: t)
    else h :: replaceFirstList t pat

/-- JS `model.name.replace('models/', '')`. -/
def replaceFirst (s pat : String) : String :=
  String.mk (replaceFirstList s.toList pat.toList)

/-- The reshaping of one Google model into an OpenAI-shaped entry
(`models.ts` lines 49-62); `now` is `Math.floor(Date.now()/1000)`. -/
def reshapeModel (now : Nat) (m : GoogleModel) : OpenAIModel :=
  let modelId := replaceFirst m.name "models/"
  { id := modelId
    object := "model"
    created := now
    owned_by := "google"
    root := modelId
    parent := none }

/-- The models endpoint handler (`models.ts` lines 4-77): non-GET gets 405;
a key-query error, an empty key list, an upstream failure or a thrown
exception all yield `200 {object:'list', data:[]}`; on success the models
whose name contains `gemini` are reshaped. -/
def modelsHandler (method : String) (keyQuery : DbResult (List String))
    (upstream : UpstreamModels) (now : Nat) : ModelsResponse :=
  if method ≠ "GET" then ⟨405, .errorBody "Method not allowed"⟩
  else
    match keyQuery with
    | .err _ => ⟨200, .list []⟩
    | .ok ks =>
      if ks.isEmpty then ⟨200, .list []⟩
      else
        match upstream with
        | .throws => ⟨200, .list []⟩
        | .notOk => ⟨200, .list []⟩
        | .ok models =>
          ⟨200, .list ((models.filter
            (fun m => !(m.name == "") && strContains m.name "gemini")).map
              (reshapeModel now))⟩

/-! ## Fake-stream chunkers (`completions-edge.ts`)

A JS string is a sequence of UTF-16 code units, and both chunkers index and
slice at the code-unit level (`fullText[i]`, `.charCodeAt(0)`, `.slice`), so
here the full text is embedded as a list of code-unit values (`List Nat`,
each value below 2^16).  An astral (non-BMP) character occupies two units —
a high surrogate (0xD800-0xDBFF) followed by a low surrogate
(0xDC00-0xDFFF) — and a chunk boundary falls inside such a multi-byte
character exactly when it separates the two halves of a surrogate pair. -/

/-- Is the code unit the high (first) half of a surrogate pair
(0xD800-0xDBFF)? -/
def isHighSurrogateU (u : Nat) : Bool :=
  55296 ≤ u && u ≤ 56319

/-- Is the code unit the low (second) half of a surrogate pair
(0xDC00-0xDFFF)? -/
def isLowSurrogateU (u : Nat) : Bool :=
  56320 ≤ u && u ≤ 57343

/-- The whitespace class of JS (`\s`, `String.trim`) on code units, for the
common code points (space, tab, LF, CR, VT, FF, NBSP); the rarer Unicode
spaces (U+1680, U+2000-U+200A, U+2028, U+2029, U+202F, U+205F, U+3000,
U+FEFF) are likewise single BMP units outside the surrogate range and are
omitted. -/
def isJsWhitespaceU (u : Nat) : Bool :=
  u = 32 || u = 9 || u = 10 || u = 13 || u = 11 || u = 12 || u = 160

/-- The boundary class of the source's regex `/[\s\.,!?;:]/` on code units
(`.` `,` `!` `?` `;` `:` are units 46, 44, 33, 63, 59, 58). -/
def isSpacePunctU (u : Nat) : Bool :=
  isJsWhitespaceU u || u = 46 || u = 44 || u = 33 || u = 63 || u = 59 || u = 58

/-- The backward seek of variant 1 (`completions-edge.ts` lines 233-237):
from boundary position `b` (relative to the unconsumed suffix `rem`), step
back while the code unit there is non-ASCII (`charCodeAt(0) > 127`) and not
a whitespace/punctuation boundary; position 0 (the current index) stops the
walk unconditionally. -/
def walkBackU (rem : List Nat) : Nat → Nat
  | 0 => 0
  | b + 1 =>
    if 127 < rem.getD (b + 1) 0 ∧ isSpacePunctU (rem.getD (b + 1) 0) = false then
      walkBackU rem b
    else b + 1

/-- Length of the next slice taken by variant 1's chunking loop
(`completions-edge.ts` lines 225-244), relative to the unconsumed suffix
`rem`; `chunkSize` is computed once from the full text. -/
def sliceLenU (chunkSize : Nat) (rem : List Nat) : Nat :=
  if min chunkSize rem.length < rem.length then
    if 127 < rem.getD (min chunkSize rem.length) 0 then
      if 0 < walkBackU rem (min chunkSize rem.length)
          ∧ isSpacePunctU (rem.getD (walkBackU rem (min chunkSize rem.length)) 0) = true then
        walkBackU rem (min chunkSize rem.length) + 1
      else walkBackU rem (min chunkSize rem.length)
    else min chunkSize rem.length
  else min chunkSize rem.length

/-- Instrumented run of variant 1's chunking loop: all computed slices (in
order) together with the unconsumed remainder when the fuel runs out (the
source loop has no fuel; it can fail to advance, see `sliceLenU` returning
0, in which case it spins forever — the remainder records what a truncated
run leaves unconsumed). -/
def fakeStreamV1AuxU (chunkSize : Nat) : Nat → List Nat → List (List Nat) × List Nat
  | 0, rem => ([], rem)
  | fuel + 1, rem =>
    if rem.isEmpty then ([], [])
    else
      let b := sliceLenU chunkSize rem
      (rem.take b :: (fakeStreamV1AuxU chunkSize fuel (rem.drop b)).1,
       (fakeStreamV1AuxU chunkSize fuel (rem.drop b)).2)

/-- The chunk texts variant 1 actually emits (`completions-edge.ts`
lines 246-253): a computed slice is emitted only when `chunkText.trim()` is
truthy, i.e. when it holds at least one non-whitespace unit. -/
def fakeStreamV1EmitU (chunkSize : Nat) : Nat → List Nat → List (List Nat)
  | 0, _ => []
  | fuel + 1, rem =>
    if rem.isEmpty then []
    else
      let b := sliceLenU chunkSize rem
      let chunk := rem.take b
      let rest := fakeStreamV1EmitU chunkSize fuel (rem.drop b)
      if chunk.any (fun u => !(isJsWhitespaceU u)) then chunk :: rest else rest

/-- The value `Math.max(15, Math.floor(fullText.length / 15))`
(`completions-edge.ts` line 220). -/
def v1ChunkSize (fullLen : Nat) : Nat := max 15 (fullLen / 15)

/-- The emitted chunk texts of variant 1 for a full text `s`. -/
def fakeStreamV1ChunksU (s : List Nat) (fuel : Nat) : List (List Nat) :=
  fakeStreamV1EmitU (v1ChunkSize s.length) fuel s

/-- Variant 2's chunking (`completions-edge.ts` lines 783-795): fixed
3-code-unit slices (`fullText.slice(currentIndex, currentIndex + 3)` with
no boundary adjustment of any kind), every one emitted (`if (chunkText)`
holds for every slice of a non-exhausted text). -/
def fakeStreamV2ChunksU : List Nat → List (List Nat)
  | [] => []
  | u :: t => List.take 3 (u :: t) :: fakeStreamV2ChunksU (List.drop 2 t)
termination_by s => s.length
decreasing_by
  simp only [List.length_drop, List.length_cons]
  omega

/-- Does the boundary between two adjacent chunks fall inside an astral
character — last unit of the first chunk a high surrogate and first unit of
the second its low surrogate? -/
def boundarySplitsPair (c1 c2 : List Nat) : Bool :=
  !c1.isEmpty && !c2.isEmpty
    && isHighSurrogateU (c1.getD (c1.length - 1) 0)
    && isLowSurrogateU (c2.getD 0 0)

/-! ## Concrete fixtures used by witnesses and counterexamples -/

/-- A concrete credential. -/
def exKey1 : GeminiKey := ⟨"k1", "AIza-first"⟩

/-- A concrete credential. -/
def exKey2 : GeminiKey := ⟨"k2", "AIza-second"⟩

/-- A concrete credential. -/
def exKey3 : GeminiKey := ⟨"k3", "AIza-third"⟩

/-- A concrete attempt oracle: `k1` fails with a retryable quota error, every
other key succeeds with the text `Hello`. -/
def exAttempt : GeminiKey → AttemptOutcome String :=
  fun k =>
    if k.id = "k1" then .failure (some ⟨"quota exceeded", none, some 429⟩)
    else .success "Hello"

/-- A concrete attempt oracle under which every key fails with a retryable
quota error. -/
def exAttemptAllFail : GeminiKey → AttemptOutcome String :=
  fun _ => .failure (some ⟨"quota exceeded", none, some 429⟩)

/-- A concrete request stamp of the shape edge handler variant 1 appends. -/
def exStamp : String := "\n<!-- req_1700000000000_abcdefghi -->"

/-- A full text whose first variant-1 chunk is entirely whitespace:
fifteen spaces (unit 32) followed by `a` (unit 97). -/
def exWsTextU : List Nat := List.replicate 15 32 ++ [97]

/-- The UTF-16 code units of the text `ab` followed by U+1F600 (an astral
emoji character): `a`, `b`, then the surrogate pair 0xD83D 0xDE00. -/
def exEmojiTextU : List Nat := [97, 98, 55357, 56832]

/-! # Theorems -/

/-! ## C10: falsy generation parameters are replaced by the defaults -/

/-- C10: the converter substitutes the defaults whenever `max_tokens` or
`temperature` is falsy, not only when absent: explicit `temperature: 0`
converts to `0.7`, explicit `max_tokens: 0` converts to `2048`, and no
request at all can produce a converted temperature of exactly `0`. -/
theorem C10_falsy_params_get_defaults :
    (convertOpenAItoGemini false ""
      { messages := [], temperature := some 0 }).generationConfig.temperature = 7 / 10 ∧
    (convertOpenAItoGemini false ""
      { messages := [], max_tokens := some 0 }).generationConfig.maxOutputTokens = 2048 ∧
    (∀ (disguise : Bool) (token : String) (req : OpenAIRequest),
      (convertOpenAItoGemini disguise token req).generationConfig.temperature ≠ 0) := by
  refine ⟨by norm_num [convertOpenAItoGemini, jsOrNum],
          by norm_num [convertOpenAItoGemini, jsOrNum], ?_⟩
  intro disguise token req
  show jsOrNum req.temperature (7 / 10) ≠ 0
  rcases req.temperature with _ | x
  · norm_num [jsOrNum]
  · rcases eq_or_ne x 0 with rfl | hx
    · norm_num [jsOrNum]
    · simp [jsOrNum, hx]

/-! ## C4: strategy selection tables of the two edge handler variants -/

/-- C4 counterexample: with streaming intent true and both flags true, edge
handler variant 2 selects the fake-stream strategy, not real-stream. -/
theorem C4_counterexample_both_flags_v2 :
    selectStrategyV2 true true true = Strategy.fakeStream ∧
    Strategy.fakeStream ≠ Strategy.realStream := by
  decide

/-- C4 (amended): with streaming intent false, both variants always pick
buffered; with streaming intent true, both variants pick real-stream for
(real=true, fake=false), fake-stream for (false, true), buffered for
(false, false); for the conflict (true, true) variant 1 picks real-stream
but variant 2 picks fake-stream. -/
theorem C4_strategy_selection_table :
    (∀ enabled fake : Bool,
      selectStrategyV1 false enabled fake = Strategy.buffered ∧
      selectStrategyV2 false enabled fake = Strategy.buffered) ∧
    selectStrategyV1 true true false = Strategy.realStream ∧
    selectStrategyV2 true true false = Strategy.realStream ∧
    selectStrategyV1 true false true = Strategy.fakeStream ∧
    selectStrategyV2 true false true = Strategy.fakeStream ∧
    selectStrategyV1 true false false = Strategy.buffered ∧
    selectStrategyV2 true false false = Strategy.buffered ∧
    selectStrategyV1 true true true = Strategy.realStream ∧
    selectStrategyV2 true true true = Strategy.fakeStream := by
  decide

/-! ## C3: retryability classification -/

/-- C3 counterexample: a falsy error value (JS `null`, modelled as `none`)
is classified non-retryable although it carries neither a 401-class nor a
403-class code — the source's first guard is `if (!error) return false`. -/
theorem C3_counterexample_null_error :
    isRetryableError none = false := by
  decide

/-- C3 (amended): the classifier returns non-retryable exactly when the
error is absent (falsy), or carries an effective 401 code, or carries an
effective 403 code while its message mentions neither `API key` nor
`API_KEY`; every other error is retryable. -/
theorem C3_retryability_classification (e : Option JsError) :
    isRetryableError e = false ↔
      e = none ∨
      (∃ err, e = some err ∧
        (jsOrNat err.code err.status = some 401 ∨
          (jsOrNat err.code err.status = some 403 ∧
            strContains err.message "API key" = false ∧
            strContains err.message "API_KEY" = false))) := by
  rcases e with _ | err
  · simp [isRetryableError]
  · by_cases h401 : jsOrNat err.code err.status = some 401
    · simp [isRetryableError, h401]
    · by_cases h403 : jsOrNat err.code err.status = some 403
      · rcases hk : strContains err.message "API key" with _ | _ <;>
          rcases hK : strContains err.message "API_KEY" with _ | _ <;>
            simp [isRetryableError, h401, h403, hk, hK]
      · simp [isRetryableError, h401, h403]

/-! ## C6: final-error synthesis after exhaustion -/

/-- C6 counterexample: the serverless handler's synthesizer has no
empty-response branch — on the message `Empty response from Gemini API`
it yields 503, not the claimed 502 (the edge variant-1 synthesizer does
yield 502 there). -/
theorem C6_counterexample_no_502_in_node :
    (synthFinalErrorNode "Empty response from Gemini API" 1).statusCode = 503 ∧
    (synthFinalErrorEdge "Empty response from Gemini API" 1).statusCode = 502 := by
  decide

/-- C6 (amended): both synthesizers map quota text to 429 (`all keys
exhausted quota`) and invalid-key text to 401 (`all keys invalid`);
empty-response text is mapped to 502 only by the edge variant-1
synthesizer, while the serverless/variant-2 synthesizer sends it to the
503 catch-all; any other text yields 503 with a message naming the number
of keys tried and the last error. -/
theorem C6_final_error_synthesis (msg : String) (n : Nat) :
    ((strContains msg "quota" || strContains msg "QUOTA_EXCEEDED") = true →
      synthFinalErrorEdge msg n = mkApiError 429 (some "All API keys have exceeded quota limits") ∧
      synthFinalErrorNode msg n = mkApiError 429 (some "All API keys have exceeded quota limits")) ∧
    ((strContains msg "quota" || strContains msg "QUOTA_EXCEEDED") = false →
      (strContains msg "API_KEY_INVALID" || strContains msg "Invalid API key") = true →
      synthFinalErrorEdge msg n = mkApiError 401 (some "All API keys are invalid") ∧
      synthFinalErrorNode msg n = mkApiError 401 (some "All API keys are invalid")) ∧
    ((strContains msg "quota" || strContains msg "QUOTA_EXCEEDED") = false →
      (strContains msg "API_KEY_INVALID" || strContains msg "Invalid API key") = false →
      strContains msg "Empty response" = true →
      synthFinalErrorEdge msg n = mkApiError 502 (some "All API keys returned empty responses") ∧
      synthFinalErrorNode msg n = mkApiError 503
        (some ("All " ++ toString n ++ " API keys failed. Last error: " ++ msg))) ∧
    ((strContains msg "quota" || strContains msg "QUOTA_EXCEEDED") = false →
      (strContains msg "API_KEY_INVALID" || strContains msg "Invalid API key") = false →
      strContains msg "Empty response" = false →
      synthFinalErrorEdge msg n = mkApiError 503
        (some ("All " ++ toString n ++ " API keys failed. Last error: " ++ msg)) ∧
      synthFinalErrorNode msg n = mkApiError 503
        (some ("All " ++ toString n ++ " API keys failed. Last error: " ++ msg))) := by
  refine ⟨fun hq => ?_, fun hq hi => ?_, fun hq hi he => ?_, fun hq hi he => ?_⟩
  · constructor <;> simp [synthFinalErrorEdge, synthFinalErrorNode, hq]
  · constructor <;> simp [synthFinalErrorEdge, synthFinalErrorNode, hq, hi]
  · constructor <;> simp [synthFinalErrorEdge, synthFinalErrorNode, hq, hi, he]
  · constructor <;> simp [synthFinalErrorEdge, synthFinalErrorNode, hq, hi, he]

/-! ## C7: pool lookup failure vs. empty pool -/

/-- C7 counterexample: a durable-storage failure is conflated with an empty
candidate list — `fetchKeysFromDb` swallows the storage error into `[]`,
and `getAllAvailableGeminiKeys` then produces exactly the same
`ApiError(503)` outcome as for a genuinely empty pool; no distinct
pool-unavailable error exists. -/
theorem C7_counterexample_conflation :
    fetchKeysFromDb (.err "connection refused") = fetchKeysFromDb (.ok []) ∧
    getAllAvailableGeminiKeys
        { isDev := true, cache := .ok none, db := .err "connection refused" }
      = getAllAvailableGeminiKeys
        { isDev := true, cache := .ok none, db := .ok [] } ∧
    getAllAvailableGeminiKeys
        { isDev := true, cache := .ok none, db := .err "connection refused" }
      = .error (mkApiError 503 none) :=
  ⟨rfl, rfl, rfl⟩

/-- C7 (amended): a storage reload failure makes `fetchKeysFromDb` return
the empty list, and `getAllAvailableGeminiKeys` throws the single
`ApiError(503)` (`no_available_keys`) exactly when the assembled key list
is empty — whether because storage failed or because no eligible
credential exists; it never returns an empty list to the caller. -/
theorem C7_pool_error_conflated (env : PoolEnv) :
    (∀ m, fetchKeysFromDb (.err m) = []) ∧
    (∀ ks, getAllAvailableGeminiKeys env = .ok ks → ks ≠ []) ∧
    (getAllAvailableGeminiKeys env = .error (mkApiError 503 none) ↔
      effectiveKeys env = []) := by
  refine ⟨fun m => rfl, ?_, ?_⟩
  · intro ks hks
    by_cases h : (effectiveKeys env).length = 0
    · simp [getAllAvailableGeminiKeys, h] at hks
    · simp only [getAllAvailableGeminiKeys, h, if_false, Except.ok.injEq] at hks
      subst hks
      intro hnil
      exact h (by simp [hnil])
  · by_cases h : (effectiveKeys env).length = 0
    · simp [getAllAvailableGeminiKeys, h, List.length_eq_zero.mp h]
    · simp [getAllAvailableGeminiKeys, h]
      intro hnil
      exact h (by simp [hnil])

/-! ## C9: models endpoint never surfaces an error -/

/-- C9: every GET invocation of the models endpoint yields status 200 with a
list body; a key-query error, an empty key list, a failed or throwing
upstream listing all yield the empty list; on success the upstream models
whose name mentions `gemini` are reshaped into OpenAI-style entries. -/
theorem C9_models_endpoint_never_errors (keyQuery : DbResult (List String))
    (up : UpstreamModels) (now : Nat) :
    (modelsHandler "GET" keyQuery up now).status = 200 ∧
    (∃ data, (modelsHandler "GET" keyQuery up now).body = .list data) ∧
    (∀ m, keyQuery = .err m → (modelsHandler "GET" keyQuery up now).body = .list []) ∧
    (keyQuery = .ok [] → (modelsHandler "GET" keyQuery up now).body = .list []) ∧
    (up = .throws → (modelsHandler "GET" keyQuery up now).body = .list []) ∧
    (up = .notOk → (modelsHandler "GET" keyQuery up now).body = .list []) ∧
    (∀ ks models, keyQuery = .ok ks → ks ≠ [] → up = .ok models →
      (modelsHandler "GET" keyQuery up now).body =
        .list ((models.filter
          (fun m => !(m.name == "") && strContains m.name "gemini")).map
            (reshapeModel now))) := by
  rcases keyQuery with ks | m
  · by_cases hks : ks.isEmpty
    · rcases up with _ | _ | models <;>
        simp_all [modelsHandler, List.isEmpty_iff]
    · rcases up with _ | _ | models <;>
        simp_all [modelsHandler, List.isEmpty_iff]
  · rcases up with _ | _ | models <;> simp [modelsHandler]

/-! ## C1: first success terminates the dispatch iteration -/

/-- C1: if every candidate before `k` fails with a retryable error and the
strategy invocation for `k` succeeds, the dispatch loop returns `k`'s
result, and the tried-key trace is exactly the candidates up to and
including `k` — no later candidate is attempted. -/
theorem C1_first_success_stops {α : Type} (attempt : GeminiKey → AttemptOutcome α)
    (pre : List GeminiKey) (k : GeminiKey) (post : List GeminiKey) (r : α)
    (lastError : Option (Option JsError))
    (hpre : ∀ k' ∈ pre, ∃ e, attempt k' = .failure e ∧ isRetryableError e = true)
    (hk : attempt k = .success r) :
    dispatchLoop attempt (pre ++ k :: post) lastError
      = (.success k.id r, pre.map (fun key => key.id) ++ [k.id]) := by
  induction pre generalizing lastError with
  | nil => simp [dispatchLoop, hk]
  | cons p ps ih =>
    obtain ⟨e, hfl, hret⟩ := hpre p (by simp)
    have htail := ih (some e) (fun k' hk' => hpre k' (by simp [hk']))
    simp [dispatchLoop, hfl, hret, htail]

/-- C1 witness: three concrete keys; `k1` fails with a retryable quota
error, `k2` succeeds with `Hello` — the loop returns `k2`'s result and
`k3` is never attempted. -/
theorem C1_first_success_stops_witness :
    dispatchLoop exAttempt ([exKey1] ++ exKey2 :: [exKey3]) none
      = (.success "k2" "Hello", ["k1", "k2"]) := by
  have h := C1_first_success_stops exAttempt [exKey1] exKey2 [exKey3] "Hello" none
    (by
      intro k' hk'
      simp only [List.mem_singleton] at hk'
      subst hk'
      exact ⟨some ⟨"quota exceeded", none, some 429⟩, by decide, by decide⟩)
    (by decide)
  simpa [exKey1, exKey2] using h

/-! ## C2: exhaustion tries every eligible candidate exactly once -/

/-- C2: when every candidate fails with a retryable error, the dispatch
loop's tried-key trace is exactly the ordered candidate list — a
permutation of the eligible set obtained at dispatch time — with the same
length, each id appearing exactly once when the eligible ids are distinct,
and the loop reports exhaustion rather than success. -/
theorem C2_exhaustion_tries_all {α : Type} (attempt : GeminiKey → AttemptOutcome α)
    (eligible ks : List GeminiKey) (lastError : Option (Option JsError))
    (hperm : ks.Perm eligible)
    (hfail : ∀ k ∈ ks, ∃ e, attempt k = .failure e ∧ isRetryableError e = true) :
    (dispatchLoop attempt ks lastError).2 = ks.map (fun key => key.id) ∧
    (dispatchLoop attempt ks lastError).2.Perm (eligible.map (fun key => key.id)) ∧
    (dispatchLoop attempt ks lastError).2.length = eligible.length ∧
    ((eligible.map (fun key => key.id)).Nodup →
      ∀ i ∈ (dispatchLoop attempt ks lastError).2,
        (dispatchLoop attempt ks lastError).2.count i = 1) ∧
    (∃ le, (dispatchLoop attempt ks lastError).1 = .exhausted le) := by
  have htried : ∀ (ks' : List GeminiKey) (le : Option (Option JsError)),
      (∀ k ∈ ks', ∃ e, attempt k = .failure e ∧ isRetryableError e = true) →
      (dispatchLoop attempt ks' le).2 = ks'.map (fun key => key.id) ∧
      (∃ le2, (dispatchLoop attempt ks' le).1 = .exhausted le2) := by
    intro ks'
    induction ks' with
    | nil => exact fun le _ => ⟨rfl, le, rfl⟩
    | cons k rest ih =>
      intro le hf
      obtain ⟨e, hfl, hret⟩ := hf k (by simp)
      obtain ⟨h1, le2, h2⟩ := ih (some e) (fun k' hk' => hf k' (by simp [hk']))
      refine ⟨by simp [dispatchLoop, hfl, hret, h1], le2, ?_⟩
      simp [dispatchLoop, hfl, hret, h2]
  obtain ⟨h1, hex⟩ := htried ks lastError hfail
  have hpermids : (ks.map (fun key => key.id)).Perm (eligible.map (fun key => key.id)) :=
    hperm.map _
  refine ⟨h1, by rw [h1]; exact hpermids, ?_, ?_, hex⟩
  · rw [h1]
    simpa using hperm.length_eq
  · intro hnodup i hi
    have hnd : (dispatchLoop attempt ks lastError).2.Nodup := by
      rw [h1]
      exact hpermids.nodup_iff.mpr hnodup
    exact List.count_eq_one_of_mem hnd hi

/-- C2 witness: two concrete keys, both failing with retryable quota errors,
tried in an order that is a (non-identity) permutation of the eligible
pair — both are tried, each exactly once. -/
theorem C2_exhaustion_tries_all_witness :
    (dispatchLoop exAttemptAllFail [exKey1, exKey2] none).2 = ["k1", "k2"] ∧
    (dispatchLoop exAttemptAllFail [exKey1, exKey2] none).2.Perm
      ([exKey2, exKey1].map (fun key => key.id)) := by
  have h := C2_exhaustion_tries_all exAttemptAllFail [exKey2, exKey1] [exKey1, exKey2] none
    (by decide)
    (by
      intro k hk
      exact ⟨some ⟨"quota exceeded", none, some 429⟩, rfl, by decide⟩)
  exact ⟨by simpa [exKey1, exKey2] using h.1, h.2.1⟩

/-! ## C8: disguise-token mutation -/

/-- A found first-user index points at a message with role `user`. -/
theorem firstUserIdxAux_spec (ms : List ChatMessage) :
    ∀ (i j : Nat), firstUserIdxAux i ms = some j →
      i ≤ j ∧ ∃ m, ms[j - i]? = some m ∧ m.role = "user" := by
  induction ms with
  | nil => intro i j h; simp [firstUserIdxAux] at h
  | cons m t ih =>
    intro i j h
    rw [firstUserIdxAux] at h
    by_cases hr : m.role == "user"
    · rw [if_pos hr] at h
      injection h with h
      subst h
      exact ⟨le_refl _, m, by simp, by simpa using hr⟩
    · rw [if_neg hr] at h
      obtain ⟨hij, m', hm', hrole⟩ := ih (i + 1) j h
      refine ⟨by omega, m', ?_, hrole⟩
      have hsub : j - i = (j - (i + 1)) + 1 := by omega
      rw [hsub]
      simpa using hm'

/-- Once the running index has passed the first-user index, the disguise
flag no longer affects the conversion. -/
theorem convertMessagesAux_past (token : String) (fIdx : Option Nat)
    (ms : List ChatMessage) :
    ∀ (i : Nat), (∀ j, fIdx = some j → j < i) →
      convertMessagesAux true token fIdx i ms
        = convertMessagesAux false token fIdx i ms := by
  induction ms with
  | nil => intro i _; rfl
  | cons m t ih =>
    intro i hlt
    have hcond : (fIdx == some i) = false := by
      rcases fIdx with _ | j
      · rfl
      · have := hlt j rfl
        simp only [beq_eq_false_iff_ne, ne_eq, Option.some.injEq]
        omega
    rw [convertMessagesAux, convertMessagesAux]
    have hone : convertOneMessage true token fIdx i m
        = convertOneMessage false token fIdx i m := by
      simp [convertOneMessage, hcond]
    rw [hone, ih (i + 1) (fun j hj => by have := hlt j hj; omega)]

/-- With the disguise flag off, the conversion ignores the first-user
index entirely. -/
theorem convertMessagesAux_false_fIdx (token : String) (f1 f2 : Option Nat)
    (ms : List ChatMessage) :
    ∀ (i : Nat), convertMessagesAux false token f1 i ms
      = convertMessagesAux false token f2 i ms := by
  induction ms with
  | nil => intro i; rfl
  | cons m t ih =>
    intro i
    rw [convertMessagesAux, convertMessagesAux]
    have hone : convertOneMessage false token f1 i m
        = convertOneMessage false token f2 i m := by
      simp [convertOneMessage]
    rw [hone, ih (i + 1)]

/-- Converting with the disguise flag on equals converting, with the flag
off, the list in which exactly the first-user message's content has been
decorated. -/
theorem convertMessagesAux_mutate (token : String) (j : Nat) :
    ∀ (ms : List ChatMessage) (i : Nat) (m : ChatMessage),
      i ≤ j → ms[j - i]? = some m → m.role = "user" →
      convertMessagesAux true token (some j) i ms
        = convertMessagesAux false token (some j) i
            (ms.set (j - i) ⟨m.role, disguiseDecorate m.content token⟩) := by
  intro ms
  induction ms with
  | nil => intro i m _ hget _; simp at hget
  | cons hd t ih =>
    intro i m hij hget hrole
    rcases Nat.eq_or_lt_of_le hij with rfl | hlt
    · simp only [Nat.sub_self] at hget ⊢
      obtain rfl : m = hd := by
        simp only [List.getElem?_cons_zero, Option.some.injEq] at hget
        exact hget.symm
      rw [show (m :: t).set 0 ⟨m.role, disguiseDecorate m.content token⟩
            = ⟨m.role, disguiseDecorate m.content token⟩ :: t from rfl]
      rw [convertMessagesAux, convertMessagesAux]
      have h1 : convertOneMessage true token (some i) i m
          = some ⟨"user", [⟨disguiseDecorate m.content token⟩]⟩ := by
        simp [convertOneMessage, hrole]
      have h2 : convertOneMessage false token (some i) i
            ⟨m.role, disguiseDecorate m.content token⟩
          = some ⟨"user", [⟨disguiseDecorate m.content token⟩]⟩ := by
        simp [convertOneMessage, hrole]
      rw [h1, h2]
      rw [convertMessagesAux_past token (some i) t (i + 1)
        (fun j hj => by injection hj with hj; omega)]
    · have hsub : j - i = (j - (i + 1)) + 1 := by omega
      rw [hsub] at hget ⊢
      rw [show (hd :: t).set ((j - (i + 1)) + 1) ⟨m.role, disguiseDecorate m.content token⟩
            = hd :: t.set (j - (i + 1)) ⟨m.role, disguiseDecorate m.content token⟩ from rfl]
      rw [convertMessagesAux, convertMessagesAux]
      have hcond : (some j == some i) = false := by
        simp only [beq_eq_false_iff_ne, ne_eq, Option.some.injEq]
        omega
      have hone : ∀ (d : Bool), convertOneMessage d token (some j) i hd
          = convertOneMessage false token (some j) i hd := by
        intro d
        cases d <;> simp [convertOneMessage, hcond]
      rw [hone true]
      rw [ih (i + 1) m (by omega) (by simpa using hget) hrole]

/-- C8 counterexample: with the disguise feature disabled, the edge handler
variant-1 pipeline still mutates the last user message — the unconditional
request stamp is appended before conversion, so "no message content is
mutated" fails on that path. -/
theorem C8_counterexample_stamp_mutation :
    convertMessages false "x" (enhanceMessages exStamp [⟨"user", "hi"⟩])
      = [⟨"user", [⟨"hi" ++ exStamp⟩]⟩] ∧
    convertMessages false "x" [⟨"user", "hi"⟩] = [⟨"user", [⟨"hi"⟩]⟩] ∧
    "hi" ++ exStamp ≠ "hi" := by
  refine ⟨by decide, by decide, by decide⟩

/-- C8 (amended): in `convertOpenAItoGemini` itself the claim holds — the
disguise token has exactly 6 characters, with the feature disabled the
conversion is unchanged, and with it enabled exactly the first user-role
message is decorated, its content growing by the token length plus 3 fixed
characters; but edge handler variant 1 additionally appends a request
stamp to the last user message before conversion, regardless of the
feature flag. -/
theorem C8_disguise_mutation (token stamp : String) (msgs init : List ChatMessage)
    (m : ChatMessage) (picks : Nat → Nat) :
    (generateDisguiseString picks).length = 6 ∧
    (firstUserIdx msgs = none →
      convertMessages true token msgs = convertMessages false token msgs) ∧
    (∀ j mu, firstUserIdx msgs = some j → msgs[j]? = some mu →
      mu.role = "user" ∧
      convertMessages true token msgs
        = convertMessages false token
            (msgs.set j ⟨mu.role, disguiseDecorate mu.content token⟩) ∧
      (disguiseDecorate mu.content token).length
        = mu.content.length + token.length + 3) ∧
    (m.role = "user" →
      enhanceMessages stamp (init ++ [m]) = init ++ [⟨m.role, m.content ++ stamp⟩]) := by
  refine ⟨?_, ?_, ?_, ?_⟩
  · simp [generateDisguiseString]
  · intro hnone
    rw [convertMessages, convertMessages, hnone]
    exact convertMessagesAux_past token none msgs 0 (fun j hj => Option.noConfusion hj)
  · intro j mu hsome hget
    obtain ⟨_, m', hm', hrole'⟩ := firstUserIdxAux_spec msgs 0 j hsome
    rw [Nat.sub_zero] at hm'
    obtain rfl : mu = m' := by
      rw [hm'] at hget
      exact (Option.some.inj hget).symm
    refine ⟨hrole', ?_, ?_⟩
    · rw [convertMessages, convertMessages, hsome]
      have := convertMessagesAux_mutate token j msgs 0 mu (Nat.zero_le j)
        (by simpa using hget) hrole'
      rw [Nat.sub_zero] at this
      rw [this]
      exact convertMessagesAux_false_fIdx token (some j) _ _ 0
    · simp only [disguiseDecorate, String.length_append]
      have h1 : " [".length = 2 := by decide
      have h2 : "]".length = 1 := by decide
      omega
  · intro hrole
    simp [enhanceMessages, List.getLast?_concat, List.dropLast_concat, hrole]


/-! ## C5: fake-stream chunk reassembly and chunk boundaries -/

/-- A whitespace/punctuation boundary unit is an ASCII-or-NBSP unit, far
below the surrogate range. -/
theorem isSpacePunctU_not_high (u : Nat) (h : isSpacePunctU u = true) :
    isHighSurrogateU u = false := by
  simp only [isSpacePunctU, isJsWhitespaceU, Bool.or_eq_true, decide_eq_true_eq] at h
  simp only [isHighSurrogateU, Bool.and_eq_false_iff, decide_eq_false_iff_not]
  omega

/-- An ASCII unit is not a low surrogate. -/
theorem ascii_not_low (u : Nat) (h : u ≤ 127) : isLowSurrogateU u = false := by
  simp only [isLowSurrogateU, Bool.and_eq_false_iff, decide_eq_false_iff_not]
  omega

/-- The backward seek never moves forward. -/
theorem walkBackU_le (rem : List Nat) : ∀ (k : Nat), walkBackU rem k ≤ k := by
  intro k
  induction k with
  | zero => simp [walkBackU]
  | succ b ih =>
    rw [walkBackU]
    split
    · exact le_trans ih (Nat.le_succ b)
    · exact le_refl _

/-- Where the backward seek stops (other than at position 0), the unit is
ASCII or a whitespace/punctuation boundary. -/
theorem walkBackU_stop (rem : List Nat) :
    ∀ (k : Nat), 0 < walkBackU rem k →
      rem.getD (walkBackU rem k) 0 ≤ 127 ∨
      isSpacePunctU (rem.getD (walkBackU rem k) 0) = true := by
  intro k
  induction k with
  | zero => intro h; simp [walkBackU] at h
  | succ b ih =>
    intro h
    by_cases hc : 127 < rem.getD (b + 1) 0 ∧ isSpacePunctU (rem.getD (b + 1) 0) = false
    · rw [walkBackU, if_pos hc] at h ⊢
      exact ih h
    · rw [walkBackU, if_neg hc] at h ⊢
      by_cases hp : isSpacePunctU (rem.getD (b + 1) 0) = true
      · exact Or.inr hp
      · left
        have hpf : isSpacePunctU (rem.getD (b + 1) 0) = false := Bool.eq_false_iff.mpr hp
        by_contra hgt
        push_neg at hgt
        exact hc ⟨by omega, hpf⟩

/-- A computed slice never reaches past the unconsumed suffix. -/
theorem sliceLenU_le (cs : Nat) (rem : List Nat) : sliceLenU cs rem ≤ rem.length := by
  rw [sliceLenU]
  have hwb := walkBackU_le rem (min cs rem.length)
  split
  · split
    · split
      · omega
      · omega
    · omega
  · omega

/-- Variant-1 boundary safety, locally: an internal slice boundary never
separates a high surrogate from a following low surrogate — the unit at the
boundary is ASCII (hence not a low surrogate), or the unit before it is a
whitespace/punctuation unit (hence not a high surrogate). -/
theorem sliceLenU_safe (cs : Nat) (rem : List Nat)
    (h0 : 0 < sliceLenU cs rem) (hn : sliceLenU cs rem < rem.length) :
    isLowSurrogateU (rem.getD (sliceLenU cs rem) 0) = false ∨
    isHighSurrogateU (rem.getD (sliceLenU cs rem - 1) 0) = false := by
  rw [sliceLenU] at h0 hn ⊢
  by_cases hmin : min cs rem.length < rem.length
  · rw [if_pos hmin] at h0 hn ⊢
    by_cases hc : 127 < rem.getD (min cs rem.length) 0
    · rw [if_pos hc] at h0 hn ⊢
      by_cases hb : 0 < walkBackU rem (min cs rem.length)
          ∧ isSpacePunctU (rem.getD (walkBackU rem (min cs rem.length)) 0) = true
      · rw [if_pos hb] at h0 hn ⊢
        right
        rw [Nat.add_sub_cancel]
        exact isSpacePunctU_not_high _ hb.2
      · rw [if_neg hb] at h0 hn ⊢
        left
        rcases walkBackU_stop rem (min cs rem.length) h0 with hle | hpunct
        · exact ascii_not_low _ hle
        · exact absurd ⟨h0, hpunct⟩ hb
    · rw [if_neg hc] at h0 hn ⊢
      left
      push_neg at hc
      exact ascii_not_low _ hc
  · rw [if_neg hmin] at hn
    exact absurd hn hmin

/-- Elements of a slice taken from the front agree with the original list. -/
theorem getD_take_eq (d : Nat) : ∀ (b i : Nat) (l : List Nat), i < b →
    (l.take b).getD i d = l.getD i d := by
  intro b
  induction b with
  | zero => intro i l h; omega
  | succ b ih =>
    intro i l h
    cases l with
    | nil => rfl
    | cons x t =>
      cases i with
      | zero => rfl
      | succ i =>
        rw [show List.take (b + 1) (x :: t) = x :: List.take b t from rfl]
        rw [List.getD_cons_succ, List.getD_cons_succ]
        exact ih i t (by omega)

/-- The head of a dropped suffix is the unit at the drop position. -/
theorem getD_drop_zero (d : Nat) : ∀ (b : Nat) (l : List Nat),
    (l.drop b).getD 0 d = l.getD b d := by
  intro b
  induction b with
  | zero => intro l; rfl
  | succ b ih =>
    intro l
    cases l with
    | nil => rfl
    | cons x t =>
      rw [List.drop_succ_cons, List.getD_cons_succ]
      exact ih t

/-- The head slice of a variant-1 run is the first computed slice, and only
a non-empty suffix produces one. -/
theorem fakeStreamV1AuxU_head (cs fuel : Nat) (rem : List Nat) (c : List Nat)
    (hc : ((fakeStreamV1AuxU cs fuel rem).1).head? = some c) :
    c = rem.take (sliceLenU cs rem) ∧ rem ≠ [] := by
  cases fuel with
  | zero => simp [fakeStreamV1AuxU] at hc
  | succ n =>
    by_cases h : rem.isEmpty
    · simp [fakeStreamV1AuxU, h] at hc
    · simp only [fakeStreamV1AuxU, h, Bool.false_eq_true, if_false, List.head?_cons,
        Option.some.injEq] at hc
      exact ⟨hc.symm, by simpa [List.isEmpty_iff] using h⟩

/-- Variant-1 boundary safety, globally: no boundary between adjacent
computed slices (hence between adjacent emitted chunks) separates the two
halves of a surrogate pair. -/
theorem fakeStreamV1AuxU_boundaries (cs : Nat) :
    ∀ (fuel : Nat) (rem : List Nat),
      List.Chain' (fun c1 c2 => boundarySplitsPair c1 c2 = false)
        ((fakeStreamV1AuxU cs fuel rem).1) := by
  intro fuel
  induction fuel with
  | zero => intro rem; simp [fakeStreamV1AuxU]
  | succ n ih =>
    intro rem
    by_cases h : rem.isEmpty
    · simp [fakeStreamV1AuxU, h]
    · simp only [fakeStreamV1AuxU, h, Bool.false_eq_true, if_false]
      rw [List.chain'_cons']
      refine ⟨?_, ih (rem.drop (sliceLenU cs rem))⟩
      intro c2 hc2
      obtain ⟨rfl, hne⟩ := fakeStreamV1AuxU_head cs n (rem.drop (sliceLenU cs rem)) c2 hc2
      have hblt : sliceLenU cs rem < rem.length := by
        rcases Nat.lt_or_ge (sliceLenU cs rem) rem.length with hlt | hge
        · exact hlt
        · exact absurd (List.drop_eq_nil_of_le hge) hne
      by_cases hb0 : sliceLenU cs rem = 0
      · simp [boundarySplitsPair, hb0]
      · by_cases hb0' : sliceLenU cs (rem.drop (sliceLenU cs rem)) = 0
        · simp [boundarySplitsPair, hb0']
        · have hlen : (rem.take (sliceLenU cs rem)).length = sliceLenU cs rem := by
            rw [List.length_take]
            omega
          show (!(rem.take (sliceLenU cs rem)).isEmpty
              && !((rem.drop (sliceLenU cs rem)).take
                    (sliceLenU cs (rem.drop (sliceLenU cs rem)))).isEmpty
              && isHighSurrogateU ((rem.take (sliceLenU cs rem)).getD
                    ((rem.take (sliceLenU cs rem)).length - 1) 0)
              && isLowSurrogateU (((rem.drop (sliceLenU cs rem)).take
                    (sliceLenU cs (rem.drop (sliceLenU cs rem)))).getD 0 0)) = false
          rw [hlen]
          rw [getD_take_eq 0 (sliceLenU cs rem) (sliceLenU cs rem - 1) rem (by omega)]
          rw [getD_take_eq 0 (sliceLenU cs (rem.drop (sliceLenU cs rem))) 0
            (rem.drop (sliceLenU cs rem)) (by omega)]
          rw [getD_drop_zero 0 (sliceLenU cs rem) rem]
          rcases sliceLenU_safe cs rem (by omega) hblt with hlow | hhigh
          · rw [hlow]
            simp
          · rw [hhigh]
            simp

/-- The variant-1 loop consumes the text left to right into contiguous
slices: the computed slices joined with the unconsumed remainder give back
the input. -/
theorem fakeStreamV1AuxU_flatten (cs : Nat) :
    ∀ (fuel : Nat) (rem : List Nat),
      (fakeStreamV1AuxU cs fuel rem).1.flatten ++ (fakeStreamV1AuxU cs fuel rem).2 = rem := by
  intro fuel
  induction fuel with
  | zero => intro rem; simp [fakeStreamV1AuxU]
  | succ n ih =>
    intro rem
    by_cases h : rem.isEmpty
    · simp [fakeStreamV1AuxU, h, List.isEmpty_iff.mp h]
    · simp only [fakeStreamV1AuxU, h, Bool.false_eq_true, if_false, List.flatten_cons,
        List.append_assoc]
      rw [ih (rem.drop (sliceLenU cs rem))]
      exact List.take_append_drop _ rem

/-- What variant 1 emits is exactly the computed slices with the
whitespace-only ones removed. -/
theorem fakeStreamV1EmitU_eq_filter (cs : Nat) :
    ∀ (fuel : Nat) (rem : List Nat),
      fakeStreamV1EmitU cs fuel rem
        = (fakeStreamV1AuxU cs fuel rem).1.filter
            (fun c => c.any (fun u => !(isJsWhitespaceU u))) := by
  intro fuel
  induction fuel with
  | zero => intro rem; simp [fakeStreamV1EmitU, fakeStreamV1AuxU]
  | succ n ih =>
    intro rem
    by_cases h : rem.isEmpty
    · simp [fakeStreamV1EmitU, fakeStreamV1AuxU, h]
    · simp only [fakeStreamV1EmitU, fakeStreamV1AuxU, h, Bool.false_eq_true, if_false]
      rw [List.filter_cons]
      by_cases hc : (rem.take (sliceLenU cs rem)).any (fun u => !(isJsWhitespaceU u))
      · simp [hc, ih]
      · simp [hc, ih]

/-- Variant 2's 3-unit slices reassemble the text exactly. -/
theorem fakeStreamV2ChunksU_flatten_bounded :
    ∀ (n : Nat) (s : List Nat), s.length ≤ n → (fakeStreamV2ChunksU s).flatten = s := by
  intro n
  induction n with
  | zero =>
    intro s h
    obtain rfl : s = [] := List.length_eq_zero.mp (Nat.le_zero.mp h)
    simp [fakeStreamV2ChunksU]
  | succ n ih =>
    intro s h
    rcases s with _ | ⟨u, t⟩
    · simp [fakeStreamV2ChunksU]
    · rw [fakeStreamV2ChunksU, List.flatten_cons]
      rw [ih (List.drop 2 t) (by
        simp only [List.length_drop, List.length_cons] at h ⊢
        omega)]
      rw [show List.take 3 (u :: t) = u :: List.take 2 t from rfl]
      rw [List.cons_append, List.take_append_drop]

/-- C5 counterexample: both conjuncts of the claim fail.  On fifteen spaces
followed by `a`, the variant-1 chunker computes a first slice that is
entirely whitespace and drops it (`if (chunkText.trim())`), so the emitted
chunks concatenate to just `a` — characters are lost.  And on the UTF-16
units of `ab` + U+1F600, the variant-2 chunker's blind 3-unit slicing puts
a chunk boundary between the high surrogate 0xD83D and the low surrogate
0xDE00 — inside a multi-byte character. -/
theorem C5_counterexample_loss_and_split :
    fakeStreamV1ChunksU exWsTextU 20 = [[97]] ∧
    (fakeStreamV1ChunksU exWsTextU 20).flatten = [97] ∧
    exWsTextU ≠ [97] ∧
    fakeStreamV2ChunksU exEmojiTextU = [[97, 98, 55357], [56832]] ∧
    isHighSurrogateU 55357 = true ∧
    isLowSurrogateU 56832 = true ∧
    boundarySplitsPair [97, 98, 55357] [56832] = true := by
  refine ⟨by decide, by decide, by decide, ?_, by decide, by decide, by decide⟩
  rw [show exEmojiTextU = 97 :: [98, 55357, 56832] from rfl, fakeStreamV2ChunksU]
  rw [show List.drop 2 [98, 55357, 56832] = 56832 :: [] from rfl, fakeStreamV2ChunksU]
  rw [show List.drop 2 ([] : List Nat) = [] from rfl, fakeStreamV2ChunksU]
  decide

/-- C5 (amended): over the UTF-16 code units JS strings consist of, the
variant-1 chunker's computed slices are contiguous, in order and lossless
up to the unconsumed remainder; its emitted chunks are those slices less
the whitespace-only ones, so emitted reassembly is exact precisely when the
run consumes the whole text and no computed slice is whitespace-only; and
its backward boundary seek never places a chunk boundary between the two
halves of a surrogate pair.  The variant-2 fixed 3-unit chunker always
reassembles the text exactly, but performs no boundary adjustment and does
place chunk boundaries inside astral characters (see the counterexample). -/
theorem C5_fake_stream_reassembly (s rem : List Nat) (cs fuel : Nat) :
    (fakeStreamV2ChunksU s).flatten = s ∧
    fakeStreamV1ChunksU rem fuel = fakeStreamV1EmitU (v1ChunkSize rem.length) fuel rem ∧
    (fakeStreamV1AuxU cs fuel rem).1.flatten ++ (fakeStreamV1AuxU cs fuel rem).2 = rem ∧
    fakeStreamV1EmitU cs fuel rem
      = (fakeStreamV1AuxU cs fuel rem).1.filter
          (fun c => c.any (fun u => !(isJsWhitespaceU u))) ∧
    List.Chain' (fun c1 c2 => boundarySplitsPair c1 c2 = false)
      ((fakeStreamV1AuxU cs fuel rem).1) ∧
    ((fakeStreamV1AuxU cs fuel rem).2 = [] →
      (∀ c ∈ (fakeStreamV1AuxU cs fuel rem).1,
        c.any (fun u => !(isJsWhitespaceU u)) = true) →
      (fakeStreamV1EmitU cs fuel rem).flatten = rem) := by
  refine ⟨fakeStreamV2ChunksU_flatten_bounded s.length s le_rfl, rfl,
    fakeStreamV1AuxU_flatten cs fuel rem, fakeStreamV1EmitU_eq_filter cs fuel rem,
    fakeStreamV1AuxU_boundaries cs fuel rem, ?_⟩
  intro hfin hall
  rw [fakeStreamV1EmitU_eq_filter, List.filter_eq_self.mpr hall]
  have hflat := fakeStreamV1AuxU_flatten cs fuel rem
  rw [hfin, List.append_nil] at hflat
  exact hflat

end Baojimi
